import Mathlib

/-!
Shallow embedding of the cat-proxy HTTP service (two source variants:
`src/index.ts`, the plain variant, and `src/unnamed/part_000`, the
authenticated variant).  Definitions are translated from the TypeScript
source; theorems settle the frozen claims about the specification.
-/

/-- Decoded JSON values, the result of `JSON.parse` on a request body. -/
inductive Json where
  | null : Json
  | bool (b : Bool) : Json
  | num (n : Int) : Json
  | str (s : String) : Json
  | arr (elems : List Json) : Json
  | obj (fields : List (String × Json)) : Json
  deriving Repr

/-- One step of a zod issue path: an object key or an array index. -/
inductive PathItem where
  | field (s : String)
  | index (n : Nat)
  deriving Repr, DecidableEq

/-- A zod validation issue: the path of the offending field and the issue code. -/
structure ZodIssue where
  path : List PathItem
  code : String
  deriving Repr, DecidableEq

/-- Prepend a path step to an issue, as zod does when descending into a field. -/
def ZodIssue.push (p : PathItem) (i : ZodIssue) : ZodIssue :=
  ⟨p :: i.path, i.code⟩

def pushAll (p : PathItem) (is : List ZodIssue) : List ZodIssue :=
  is.map (ZodIssue.push p)

/-- Combine two field results the way zod's object parser does: both are
    parsed, and issues from both are concatenated in shape order. -/
def comb2 {α β γ : Type} (mk : α → β → γ) :
    Except (List ZodIssue) α → Except (List ZodIssue) β → Except (List ZodIssue) γ
  | .ok a, .ok b => .ok (mk a b)
  | .ok _, .error es => .error es
  | .error es, .ok _ => .error es
  | .error es, .error es2 => .error (es ++ es2)

/-- Property lookup on a decoded JS object (`undefined` when absent). -/
def lookupField (fs : List (String × Json)) (k : String) : Option Json :=
  match fs.find? (fun kv => kv.1 == k) with
  | some kv => some kv.2
  | none => none

/-- Parse one field of a zod object schema, prefixing issue paths with the key. -/
def parseField {α : Type} (name : String)
    (p : Option Json → Except (List ZodIssue) α)
    (fs : List (String × Json)) : Except (List ZodIssue) α :=
  match p (lookupField fs name) with
  | .ok a => .ok a
  | .error es => .error (pushAll (.field name) es)

/-- `z.string()`: a missing or non-string value is an `invalid_type` issue. -/
def parseStringV : Option Json → Except (List ZodIssue) String
  | some (.str s) => .ok s
  | _ => .error [⟨[], "invalid_type"⟩]

/-- `z.enum(allowed)` over strings. -/
def parseEnumV (allowed : List String) : Option Json → Except (List ZodIssue) String
  | some (.str s) =>
      if allowed.contains s then .ok s else .error [⟨[], "invalid_enum_value"⟩]
  | _ => .error [⟨[], "invalid_type"⟩]

/-- `z.literal("text")` from `MessageContentSchema`. -/
def parseLiteralText : Option Json → Except (List ZodIssue) String
  | some (.str s) =>
      if s = "text" then .ok s else .error [⟨[], "invalid_literal"⟩]
  | _ => .error [⟨[], "invalid_literal"⟩]

/-- `z.record(z.any())` from `ModelSchema`: any object of arbitrary values. -/
def parseRecordAny : Option Json → Except (List ZodIssue) (List (String × Json))
  | some (.obj fs) => .ok fs
  | _ => .error [⟨[], "invalid_type"⟩]

/-- A validated content part: `{ type: "text", text: string }`. -/
structure ContentPart where
  type : String
  text : String
  deriving Repr, DecidableEq

/-- A validated message: `{ role, parts }` with `role` constrained by the enum. -/
structure Message where
  role : String
  parts : List ContentPart
  deriving Repr

/-- The validated model selector: `{ uri: string, params: record }`. -/
structure ModelSel where
  uri : String
  params : List (String × Json)
  deriving Repr

/-- The validated request payload: `{ messages, model }`. -/
structure Payload where
  messages : List Message
  model : ModelSel
  deriving Repr

/-- `MessageContentSchema.parse`: an object with literal `type: "text"` and a
    string `text`. -/
def parseContentPart (j : Json) : Except (List ZodIssue) ContentPart :=
  match j with
  | .obj fs =>
      comb2 ContentPart.mk
        (parseField "type" parseLiteralText fs)
        (parseField "text" parseStringV fs)
  | _ => .error [⟨[], "invalid_type"⟩]

/-- Element-wise array parsing, prefixing each element's issues with its index. -/
def collectElems {α : Type} (f : Json → Except (List ZodIssue) α) :
    Nat → List Json → Except (List ZodIssue) (List α)
  | _, [] => .ok []
  | i, x :: xs =>
      comb2 List.cons
        (match f x with
         | .ok a => .ok a
         | .error es => .error (pushAll (.index i) es))
        (collectElems f (i + 1) xs)

/-- `z.array(f)`: a missing or non-array value is an `invalid_type` issue. -/
def parseArrayOf {α : Type} (f : Json → Except (List ZodIssue) α) :
    Option Json → Except (List ZodIssue) (List α)
  | some (.arr xs) => collectElems f 0 xs
  | _ => .error [⟨[], "invalid_type"⟩]

/-- `MessageSchema.parse`, parameterised by the role enum of the variant. -/
def parseMessage (roles : List String) (j : Json) : Except (List ZodIssue) Message :=
  match j with
  | .obj fs =>
      comb2 Message.mk
        (parseField "role" (parseEnumV roles) fs)
        (parseField "parts" (parseArrayOf parseContentPart) fs)
  | _ => .error [⟨[], "invalid_type"⟩]

/-- `ModelSchema.parse`: `{ uri: z.string(), params: z.record(z.any()) }`. -/
def parseModel : Option Json → Except (List ZodIssue) ModelSel
  | some (.obj fs) =>
      comb2 ModelSel.mk
        (parseField "uri" parseStringV fs)
        (parseField "params" parseRecordAny fs)
  | _ => .error [⟨[], "invalid_type"⟩]

/-- `PayloadSchema.safeParse` on a decoded JSON body. -/
def safeParsePayload (roles : List String) (j : Json) : Except (List ZodIssue) Payload :=
  match j with
  | .obj fs =>
      comb2 Payload.mk
        (parseField "messages" (parseArrayOf (parseMessage roles)) fs)
        (parseField "model" parseModel fs)
  | _ => .error [⟨[], "invalid_type"⟩]

/-- Whether a `safeParse` result failed with some issue whose path is exactly
    `p` — i.e. the machine-readable `details` array names that field path. -/
def hasIssueAt (r : Except (List ZodIssue) Payload) (p : List PathItem) : Bool :=
  match r with
  | .ok _ => false
  | .error es => es.any (fun i => i.path == p)

/-- Role enum of the authenticated variant (`src/unnamed/part_000`). -/
def rolesAuth : List String := ["system", "user", "assistant"]

/-- Role enum of the plain variant (`src/index.ts`). -/
def rolesPlain : List String := ["system", "user"]

/-- `isDeployment` from the authenticated variant (`src/unnamed/part_000`). -/
def isDeployment (s : String) : Bool :=
  s = "gpt-4.1" || s = "gpt-4.1-mini" || s = "gpt-4.1-nano" || s = "gpt-4o" ||
    s = "gpt-4o-mini" || s = "o3-mini"

/-- The members of the `CompletionDeployment` union type in the authenticated
    variant. -/
def CompletionDeployment : List String :=
  ["gpt-4.1", "gpt-4.1-mini", "gpt-4.1-nano", "gpt-4o", "gpt-4o-mini", "o3-mini"]

namespace Plain

/-- `isDeployment` from the plain variant (`src/index.ts`). -/
def isDeployment (s : String) : Bool :=
  s = "gpt-4.1" || s = "gpt-4o" || s = "gpt-4o-mini" || s = "o3-mini"

/-- The members of the `CompletionDeployment` union type in the plain variant. -/
def CompletionDeployment : List String :=
  ["gpt-4.1", "gpt-4o", "gpt-4o-mini", "gpt-4.1-nano"]

end Plain

/-- A provider-format message: system content is one flat string, user content
    is the structured parts array (`CoreSystemMessage` / `CoreUserMessage`). -/
inductive CoreMessage where
  | system (content : String)
  | user (content : List ContentPart)
  deriving Repr, DecidableEq

/-- The per-message branch of the `messages.map` adapter in both variants:
    system messages join all text parts with a single space, every other role
    falls into the user branch with the parts array passed through. -/
def adaptMessage (msg : Message) : CoreMessage :=
  if msg.role = "system" then
    .system (String.intercalate " " (msg.parts.map ContentPart.text))
  else
    .user msg.parts

/-- `coreMessages`: the full `messages.map` from the request handler. -/
def coreMessages (messages : List Message) : List CoreMessage :=
  messages.map adaptMessage

/-- `SYSTEM_PROMPT` constant from the source. -/
def SYSTEM_PROMPT : String := "You are a helpful assistant"

/-- One read from the provider stream reader: a chunk, or a thrown error
    (`done` is the end of the event list). -/
inductive StreamEvent where
  | chunk (s : String)
  | err
  deriving Repr, DecidableEq

/-- Observable state of the caller's response body during streaming: the
    chunks written by `res.write`, in order, and whether `res.end` ran. -/
structure ResState where
  writes : List String
  ended : Bool
  deriving Repr, DecidableEq

/-- The `pump` loop: read the next event; on a chunk, `res.write` it and
    recurse; at end of stream, or on a thrown error, `res.end()`. -/
def pump : List StreamEvent → ResState → ResState
  | [], res => { res with ended := true }
  | .chunk s :: rest, res => pump rest { res with writes := res.writes ++ [s] }
  | .err :: _, res => { res with ended := true }

/-- The relayed HTTP body: the exact concatenation of the written chunks. -/
def relayedBody (res : ResState) : String :=
  String.join res.writes

/-- JS truthiness of an optional environment variable (`!v` is true for both
    a missing variable and the empty string). -/
def present : Option String → Bool
  | some s => s ≠ ""
  | none => false

/-- The process environment and the outcomes of the two outbound calls the
    authenticated variant can make (the Clerk userinfo GET during
    authentication, and the Clerk HEAD probe during the health check):
    `none` models a thrown network error, `some n` an HTTP status `n`. -/
structure Env where
  port : Option String
  clerkUserInfoUrl : Option String
  azureResourceName : Option String
  azureApiKey : Option String
  idStatus : Option Nat
  clerkHeadStatus : Option Nat
  deriving Repr

/-- `response.ok` in JS: status in the 200–299 range. -/
def respOk (s : Nat) : Bool := 200 ≤ s && s ≤ 299

/-- JS `String.prototype.startsWith`, as a structural recursion over the
    decoded characters (so that concrete instances evaluate). -/
def strStartsWith (s p : String) : Bool :=
  go s.data p.data
where
  go : List Char → List Char → Bool
  | _, [] => true
  | [], _ :: _ => false
  | c :: cs, d :: ds => c == d && go cs ds

/-- `extractBearerToken`: `null` unless the header starts with `"Bearer "`,
    otherwise the header with the 7-character `"Bearer "` removed. -/
def extractBearerToken (authHeader : Option String) : Option String :=
  match authHeader with
  | none => none
  | some h => if strStartsWith h "Bearer " then some (h.drop 7) else none

/-- The per-request auth result `{ success, error? }`. -/
structure AuthResult where
  success : Bool
  error : Option String
  deriving Repr, DecidableEq

/-- `verifyAuthentication`: extract the bearer token; on failure return
    immediately with no outbound call. Otherwise check the configured
    userinfo URL, call it, and map the response status. The second component
    records whether the outbound identity call was made. -/
def verifyAuthentication (env : Env) (authHeader : Option String) :
    AuthResult × Bool :=
  match extractBearerToken authHeader with
  | none => (⟨false, some "Missing or invalid Authorization header"⟩, false)
  | some _ =>
      if present env.clerkUserInfoUrl then
        match env.idStatus with
        | none => (⟨false, some "Internal server error during authentication"⟩, true)
        | some status =>
            if respOk status then (⟨true, none⟩, true)
            else if status = 401 then
              (⟨false, some "Invalid or expired access token"⟩, true)
            else (⟨false, some "Authentication service unavailable"⟩, true)
      else (⟨false, some "Server configuration error"⟩, false)

/-- One entry of the health report's `checks` record. -/
structure Check where
  status : String
  message : Option String
  deriving Repr, DecidableEq

/-- The aggregate health report returned by `checkHealth`. -/
structure HealthStatus where
  status : String
  environment : Check
  azureConnection : Check
  clerkService : Check
  message : Option String
  deriving Repr, DecidableEq

/-- The `requiredEnvVars` list from `checkHealth`. -/
def requiredEnvVars : List String :=
  ["PORT", "CLERK_OAUTH_USER_INFO_URL", "AZURE_AI_RESOURCE_NAME", "AZURE_AI_API_KEY"]

/-- `process.env[name]` for the four required variables. -/
def envVarValue (env : Env) (name : String) : Option String :=
  if name = "PORT" then env.port
  else if name = "CLERK_OAUTH_USER_INFO_URL" then env.clerkUserInfoUrl
  else if name = "AZURE_AI_RESOURCE_NAME" then env.azureResourceName
  else if name = "AZURE_AI_API_KEY" then env.azureApiKey
  else none

/-- The environment check: `ok` unless some required variable is falsy; the
    loop breaks at the first missing one. -/
def environmentCheck (env : Env) : Check :=
  match requiredEnvVars.find? (fun v => !present (envVarValue env v)) with
  | none => ⟨"ok", none⟩
  | some v => ⟨"error", some ("Missing required environment variable: " ++ v)⟩

/-- Whether `makeAzureProviderInstance()` returns without throwing: it throws
    exactly when the resource name or the API key is falsy. -/
def makeAzureProviderInstanceOk (env : Env) : Bool :=
  present env.azureResourceName && present env.azureApiKey

/-- The Azure connection check of `checkHealth`. -/
def azureConnectionCheck (env : Env) : Check :=
  if makeAzureProviderInstanceOk env then ⟨"ok", none⟩
  else ⟨"error", some "Missing Azure AI resource name or API key in environment variables"⟩

/-- The Clerk reachability check of `checkHealth` (HEAD probe). -/
def clerkServiceCheck (env : Env) : Check :=
  match env.clerkHeadStatus with
  | none => ⟨"error", some "Failed to connect to Clerk service"⟩
  | some s =>
      if respOk s then ⟨"ok", none⟩
      else ⟨"error", some ("Clerk service returned status " ++ toString s)⟩

/-- `checkHealth`: overall status considers only the `environment` and
    `azureConnection` checks (the `criticalChecks` list). -/
def checkHealth (env : Env) : HealthStatus :=
  let envCheck := environmentCheck env
  let azCheck := azureConnectionCheck env
  let clerkCheck := clerkServiceCheck env
  let isHealthy := envCheck.status = "ok" && azCheck.status = "ok"
  { status := if isHealthy then "healthy" else "unhealthy"
    environment := envCheck
    azureConnection := azCheck
    clerkService := clerkCheck
    message := if isHealthy then none else some "One or more critical checks failed" }

/-- An inbound HTTP request as the handler sees it: method, path, the raw
    `Authorization` header, and the result of `JSON.parse` on the body
    (`.error` carries the parse error's message). -/
structure Request where
  method : String
  path : String
  authorization : Option String
  body : Except String Json

/-- The structurally distinct response bodies the handler can produce. -/
inductive RespBody where
  | text (s : String)
  | health (h : HealthStatus)
  | authError (error : String) (details : Option String)
  | validationError (error : String) (details : List ZodIssue)
  | simpleError (error : String)
  | processError (error : String) (details : String)
  | stream (chunks : List String)
  deriving Repr

/-- An HTTP response: status code and body. -/
structure Response where
  status : Nat
  body : RespBody
  deriving Repr

/-- The `streamText` invocation observable by the provider: deployment name,
    fixed system instruction, and the adapted messages. -/
structure ProviderCall where
  deployment : String
  systemMsg : String
  messages : List CoreMessage
  deriving Repr, DecidableEq

/-- The full observable outcome of one request: the response, whether the
    outbound identity-introspection call was made, and the provider
    invocation (if any). -/
structure HandlerResult where
  response : Response
  idCallMade : Bool
  providerCall : Option ProviderCall

/-- The request handler of the authenticated variant
    (`src/unnamed/part_000`, `http.createServer` callback).  `streamBody`
    models `result.toDataStreamResponse().body`: `none` is a null body,
    `some events` the readable stream consumed by `pump`. -/
def handleRequest (env : Env) (streamBody : Option (List StreamEvent))
    (req : Request) : HandlerResult :=
  if req.path = "/health" then
    let h := checkHealth env
    ⟨⟨if h.status = "healthy" then 200 else 503, .health h⟩, false, none⟩
  else if req.path = "/v1/chat/completions" then
    if req.method ≠ "POST" then
      ⟨⟨405, .text "Method Not Allowed"⟩, false, none⟩
    else
      let ar := verifyAuthentication env req.authorization
      if !ar.1.success then
        ⟨⟨401, .authError "Unauthorized" ar.1.error⟩, ar.2, none⟩
      else
        match req.body with
        | .error msg =>
            ⟨⟨500, .processError "Failed to process request" msg⟩, ar.2, none⟩
        | .ok j =>
            match safeParsePayload rolesAuth j with
            | .error issues =>
                ⟨⟨400, .validationError "Invalid request body" issues⟩, ar.2, none⟩
            | .ok payload =>
                if !isDeployment payload.model.uri then
                  ⟨⟨400, .simpleError "Invalid deployment in model.uri"⟩, ar.2, none⟩
                else if !makeAzureProviderInstanceOk env then
                  ⟨⟨500, .processError "Failed to process request"
                      "Missing Azure AI resource name or API key in environment variables"⟩,
                    ar.2, none⟩
                else
                  let call : ProviderCall :=
                    ⟨payload.model.uri, SYSTEM_PROMPT, coreMessages payload.messages⟩
                  match streamBody with
                  | none =>
                      ⟨⟨500, .simpleError "Failed to create stream"⟩, ar.2, some call⟩
                  | some events =>
                      let st := pump events ⟨[], false⟩
                      ⟨⟨200, .stream st.writes⟩, ar.2, some call⟩
  else
    ⟨⟨404, .text "Not Found"⟩, false, none⟩

/-! ## Helper lemmas -/

theorem pump_chunks (chunks : List String) (res : ResState) :
    pump (chunks.map StreamEvent.chunk) res = ⟨res.writes ++ chunks, true⟩ := by
  induction chunks generalizing res with
  | nil => simp [pump]
  | cons c cs ih => simp [pump, ih]

/-! ## Claims -/

/-- C1: the relay loop writes each received chunk to the response body in
    order, with no merging, reordering, or trailing injected content; the
    relayed body is the exact concatenation of the chunks, and for the
    stream `["Hel", "lo"]` it equals `"Hello"`. -/
theorem relay_preserves_chunks :
    (∀ chunks : List String,
      (pump (chunks.map StreamEvent.chunk) ⟨[], false⟩).writes = chunks ∧
      (pump (chunks.map StreamEvent.chunk) ⟨[], false⟩).ended = true ∧
      relayedBody (pump (chunks.map StreamEvent.chunk) ⟨[], false⟩) =
        String.join chunks) ∧
    relayedBody (pump [StreamEvent.chunk "Hel", StreamEvent.chunk "lo"] ⟨[], false⟩) =
      "Hello" := by
  constructor
  · intro chunks
    simp [pump_chunks, relayedBody]
  · rfl

/-- C2: a validated system-role message adapts to a single flat string: the
    message's text parts joined by a single space; in particular the parts
    `["A", "B"]` adapt to `"A B"`. -/
theorem system_role_joins_text_parts :
    (∀ parts : List ContentPart,
      adaptMessage ⟨"system", parts⟩ =
        .system (String.intercalate " " (parts.map ContentPart.text))) ∧
    (∀ p q : ContentPart,
      adaptMessage ⟨"system", [p, q]⟩ = .system (p.text ++ " " ++ q.text)) ∧
    adaptMessage ⟨"system", [⟨"text", "A"⟩, ⟨"text", "B"⟩]⟩ = .system "A B" := by
  refine ⟨fun parts => rfl, fun p q => ?_, rfl⟩
  simp [adaptMessage, String.intercalate, String.intercalate.go]

/-- C3: every validated message whose role is not `"system"` adapts to a
    user-role message whose content is the original parts array unchanged. -/
theorem nonsystem_role_keeps_parts (msg : Message) (h : msg.role ≠ "system") :
    adaptMessage msg = .user msg.parts := by
  simp [adaptMessage, h]

theorem nonsystem_role_keeps_parts_witness :
    adaptMessage ⟨"assistant", [⟨"text", "hi"⟩]⟩ = .user [⟨"text", "hi"⟩] :=
  nonsystem_role_keeps_parts ⟨"assistant", [⟨"text", "hi"⟩]⟩ (by decide)

/-- C5: in the plain variant, `"o3-mini"` passes validation but is not in the
    declared `CompletionDeployment` type while `"gpt-4.1-nano"` is declared
    but rejected by validation; in the authenticated variant the validated
    set and the declared set coincide. -/
theorem deployment_sets_drift :
    (Plain.isDeployment "o3-mini" = true ∧
      "o3-mini" ∉ Plain.CompletionDeployment) ∧
    ("gpt-4.1-nano" ∈ Plain.CompletionDeployment ∧
      Plain.isDeployment "gpt-4.1-nano" = false) ∧
    (∀ s : String, isDeployment s = true ↔ s ∈ CompletionDeployment) := by
  refine ⟨⟨rfl, by decide⟩, ⟨by decide, rfl⟩, fun s => ?_⟩
  simp [isDeployment, CompletionDeployment]
  tauto

/-- C4: a request that passes schema validation but whose `model.uri` is not
    in the deployment allow-list gets a 400 response with body message
    `"Invalid deployment in model.uri"`, structurally distinct from the
    schema-validation 400 (`"Invalid request body"` with a details list). -/
theorem invalid_deployment_distinct_400 (env : Env)
    (sb : Option (List StreamEvent)) (req : Request) (j : Json)
    (payload : Payload) (d : List ZodIssue)
    (hp : req.path = "/v1/chat/completions") (hm : req.method = "POST")
    (ha : (verifyAuthentication env req.authorization).1.success = true)
    (hb : req.body = .ok j)
    (hv : safeParsePayload rolesAuth j = .ok payload)
    (hd : isDeployment payload.model.uri = false) :
    (handleRequest env sb req).response =
      ⟨400, .simpleError "Invalid deployment in model.uri"⟩ ∧
    (handleRequest env sb req).response.body ≠
      RespBody.validationError "Invalid request body" d := by
  have hres : (handleRequest env sb req).response =
      ⟨400, .simpleError "Invalid deployment in model.uri"⟩ := by
    simp [handleRequest, hp, hm, ha, hb, hv, hd]
  refine ⟨hres, ?_⟩
  rw [hres]
  intro hcontra
  exact RespBody.noConfusion hcontra

/-- The concrete input for the C4 witness: authenticated request whose body
    validates but names the unknown deployment `"nope"`. -/
def c4req : Request :=
  ⟨"POST", "/v1/chat/completions", some "Bearer tok",
    .ok (.obj [("messages", .arr []),
               ("model", .obj [("uri", .str "nope"), ("params", .obj [])])])⟩

def c4env : Env :=
  ⟨some "3000", some "https://clerk.example/userinfo", some "res", some "key",
    some 200, some 200⟩

theorem invalid_deployment_distinct_400_witness :
    (handleRequest c4env none c4req).response =
      ⟨400, .simpleError "Invalid deployment in model.uri"⟩ ∧
    (handleRequest c4env none c4req).response.body ≠
      RespBody.validationError "Invalid request body" [] :=
  invalid_deployment_distinct_400 c4env none c4req
    (.obj [("messages", .arr []),
           ("model", .obj [("uri", .str "nope"), ("params", .obj [])])])
    ⟨[], ⟨"nope", []⟩⟩ [] rfl rfl rfl rfl rfl rfl

/-- C6: in the authenticated variant, a completions request with no
    `Authorization` header, or one not starting with `"Bearer "`, yields an
    immediate 401, makes no outbound identity call, and never reaches body
    parsing, validation, or the provider relay. -/
theorem missing_bearer_401_no_outbound (env : Env)
    (sb : Option (List StreamEvent)) (req : Request)
    (hp : req.path = "/v1/chat/completions") (hm : req.method = "POST")
    (ha : req.authorization = none ∨
      ∃ h, req.authorization = some h ∧ strStartsWith h "Bearer " = false) :
    (handleRequest env sb req).response =
      ⟨401, .authError "Unauthorized" (some "Missing or invalid Authorization header")⟩ ∧
    (handleRequest env sb req).idCallMade = false ∧
    (handleRequest env sb req).providerCall = none := by
  have hex : extractBearerToken req.authorization = none := by
    rcases ha with h0 | ⟨h, hh, hs⟩
    · simp [extractBearerToken, h0]
    · simp [extractBearerToken, hh, hs]
  have hva : verifyAuthentication env req.authorization =
      (⟨false, some "Missing or invalid Authorization header"⟩, false) := by
    simp [verifyAuthentication, hex]
  refine ⟨?_, ?_, ?_⟩ <;> simp [handleRequest, hp, hm, hva]

theorem missing_bearer_401_no_outbound_witness :
    (handleRequest c4env none ⟨"POST", "/v1/chat/completions", none, .error "x"⟩).response =
      ⟨401, .authError "Unauthorized" (some "Missing or invalid Authorization header")⟩ ∧
    (handleRequest c4env none
        ⟨"POST", "/v1/chat/completions", none, .error "x"⟩).idCallMade = false ∧
    (handleRequest c4env none
        ⟨"POST", "/v1/chat/completions", none, .error "x"⟩).providerCall = none :=
  missing_bearer_401_no_outbound c4env none
    ⟨"POST", "/v1/chat/completions", none, .error "x"⟩ rfl rfl (Or.inl rfl)

/-- C7: `/health` answers 200 exactly when both the environment check and the
    provider-construction check report ok (503 otherwise), and the Clerk
    reachability outcome never affects the overall status. -/
theorem health_200_iff_critical_checks (env : Env) (req : Request)
    (hp : req.path = "/health") :
    ((handleRequest env none req).response.status = 200 ↔
      (environmentCheck env).status = "ok" ∧
        (azureConnectionCheck env).status = "ok") ∧
    ((handleRequest env none req).response.status = 200 ∨
      (handleRequest env none req).response.status = 503) ∧
    (∀ a b : Option Nat,
      (checkHealth { env with clerkHeadStatus := a }).status =
        (checkHealth { env with clerkHeadStatus := b }).status) := by
  have hstat : (handleRequest env none req).response.status =
      if (environmentCheck env).status = "ok" ∧
          (azureConnectionCheck env).status = "ok" then 200 else 503 := by
    by_cases h1 : (environmentCheck env).status = "ok" <;>
      by_cases h2 : (azureConnectionCheck env).status = "ok" <;>
        simp [handleRequest, hp, checkHealth, h1, h2]
  refine ⟨?_, ?_, fun a b => rfl⟩
  · rw [hstat]
    by_cases h : (environmentCheck env).status = "ok" ∧
        (azureConnectionCheck env).status = "ok" <;> simp [h]
  · rw [hstat]
    by_cases h : (environmentCheck env).status = "ok" ∧
        (azureConnectionCheck env).status = "ok" <;> simp [h]

theorem health_200_iff_critical_checks_witness :
    (handleRequest c4env none ⟨"GET", "/health", none, .error ""⟩).response.status =
      200 :=
  (health_200_iff_critical_checks c4env ⟨"GET", "/health", none, .error ""⟩
    rfl).1.mpr ⟨rfl, rfl⟩

/-- C9 counterexample: the claim says a non-GET request to `/health` in the
    authenticated variant returns 405, but the handler's `/health` branch
    never inspects the method: a POST to `/health` gets the health report
    (here 200), not 405. -/
theorem health_post_is_not_405 :
    (handleRequest c4env none
      ⟨"POST", "/health", none, .error ""⟩).response.status ≠ 405 := by
  decide

/-- C9 (amended): unknown paths return 404 with a plain-text body, and a
    non-POST request to the completions path returns 405; `/health`, however,
    answers every method — GET or not — with the health report (status 200 or
    503), never 405. -/
theorem routing_404_405 :
    (∀ (env : Env) (sb : Option (List StreamEvent)) (req : Request),
      req.path ≠ "/health" → req.path ≠ "/v1/chat/completions" →
      (handleRequest env sb req).response = ⟨404, .text "Not Found"⟩) ∧
    (∀ (env : Env) (sb : Option (List StreamEvent)) (req : Request),
      req.path = "/v1/chat/completions" → req.method ≠ "POST" →
      (handleRequest env sb req).response = ⟨405, .text "Method Not Allowed"⟩) ∧
    (∀ (env : Env) (sb : Option (List StreamEvent)) (req : Request),
      req.path = "/health" →
      (handleRequest env sb req).response.status = 200 ∨
        (handleRequest env sb req).response.status = 503) := by
  refine ⟨fun env sb req h1 h2 => ?_, fun env sb req hp hm => ?_,
    fun env sb req hp => ?_⟩
  · simp [handleRequest, h1, h2]
  · simp [handleRequest, hp, hm]
  · by_cases hh : (checkHealth env).status = "healthy" <;>
      simp [handleRequest, hp, hh]

theorem routing_404_405_witness :
    (handleRequest c4env none ⟨"GET", "/nope", none, .error ""⟩).response =
      ⟨404, .text "Not Found"⟩ ∧
    (handleRequest c4env none
        ⟨"GET", "/v1/chat/completions", none, .error ""⟩).response =
      ⟨405, .text "Method Not Allowed"⟩ ∧
    ((handleRequest c4env none ⟨"PUT", "/health", none, .error ""⟩).response.status =
        200 ∨
      (handleRequest c4env none ⟨"PUT", "/health", none, .error ""⟩).response.status =
        503) :=
  ⟨routing_404_405.1 c4env none ⟨"GET", "/nope", none, .error ""⟩
      (by decide) (by decide),
   routing_404_405.2.1 c4env none ⟨"GET", "/v1/chat/completions", none, .error ""⟩
      rfl (by decide),
   routing_404_405.2.2 c4env none ⟨"PUT", "/health", none, .error ""⟩ rfl⟩

/-- C10: two completion requests that are identical except for the contents
    of the validated `model.params` record produce identical behaviour: the
    same response, the same identity-call activity, and the same provider
    invocation. -/
theorem params_never_influence_behavior (env : Env)
    (sb : Option (List StreamEvent)) (m pa : String) (ah : Option String)
    (j1 j2 : Json) (pl1 pl2 : Payload)
    (h1 : safeParsePayload rolesAuth j1 = .ok pl1)
    (h2 : safeParsePayload rolesAuth j2 = .ok pl2)
    (hmsg : pl1.messages = pl2.messages)
    (huri : pl1.model.uri = pl2.model.uri) :
    handleRequest env sb ⟨m, pa, ah, .ok j1⟩ =
      handleRequest env sb ⟨m, pa, ah, .ok j2⟩ := by
  by_cases hh : pa = "/health"
  · simp [handleRequest, hh]
  · by_cases hc : pa = "/v1/chat/completions"
    · by_cases hm : m = "POST"
      · simp [handleRequest, hh, hc, hm, h1, h2, hmsg, huri]
      · simp [handleRequest, hh, hc, hm]
    · simp [handleRequest, hh, hc]

/-- A completion body whose `model.params` value is the argument. -/
def paramsBody (params : Json) : Json :=
  .obj [("messages",
          .arr [.obj [("role", .str "user"),
                      ("parts", .arr [.obj [("type", .str "text"),
                                            ("text", .str "hi")]])]]),
        ("model", .obj [("uri", .str "gpt-4o"), ("params", params)])]

theorem params_never_influence_behavior_witness :
    handleRequest c4env (some [.chunk "ok"])
        ⟨"POST", "/v1/chat/completions", some "Bearer t",
          .ok (paramsBody (.obj [("temperature", .num 1)]))⟩ =
      handleRequest c4env (some [.chunk "ok"])
        ⟨"POST", "/v1/chat/completions", some "Bearer t",
          .ok (paramsBody (.obj []))⟩ :=
  params_never_influence_behavior c4env (some [.chunk "ok"])
    "POST" "/v1/chat/completions" (some "Bearer t")
    (paramsBody (.obj [("temperature", .num 1)])) (paramsBody (.obj []))
    ⟨[⟨"user", [⟨"text", "hi"⟩]⟩], ⟨"gpt-4o", [("temperature", .num 1)]⟩⟩
    ⟨[⟨"user", [⟨"text", "hi"⟩]⟩], ⟨"gpt-4o", []⟩⟩
    rfl rfl rfl rfl

/-! ## Issue-propagation lemmas for the zod embedding -/

theorem comb2_error_left_mem {α β γ : Type} (mk : α → β → γ)
    (rb : Except (List ZodIssue) β) (es : List ZodIssue) (i : ZodIssue)
    (hi : i ∈ es) :
    ∃ es', comb2 mk (.error es) rb = .error es' ∧ i ∈ es' := by
  cases rb with
  | ok b => exact ⟨es, rfl, hi⟩
  | error es2 => exact ⟨es ++ es2, rfl, List.mem_append_left _ hi⟩

theorem comb2_error_right_mem {α β γ : Type} (mk : α → β → γ)
    (ra : Except (List ZodIssue) α) (es : List ZodIssue) (i : ZodIssue)
    (hi : i ∈ es) :
    ∃ es', comb2 mk ra (.error es) = .error es' ∧ i ∈ es' := by
  cases ra with
  | ok a => exact ⟨es, rfl, hi⟩
  | error es0 => exact ⟨es0 ++ es, rfl, List.mem_append_right _ hi⟩

theorem hasIssueAt_of_mem (r : Except (List ZodIssue) Payload)
    (es : List ZodIssue) (i : ZodIssue) (p : List PathItem)
    (hr : r = .error es) (hi : i ∈ es) (hp : i.path = p) :
    hasIssueAt r p = true := by
  subst hr
  subst hp
  simp only [hasIssueAt, List.any_eq_true, beq_iff_eq]
  exact ⟨i, hi, rfl⟩

theorem collectElems_error_mem {α : Type} (f : Json → Except (List ZodIssue) α)
    (xs : List Json) (k i : Nat) (x : Json) (es : List ZodIssue) (e : ZodIssue)
    (hx : xs.get? i = some x) (hf : f x = .error es) (he : e ∈ es) :
    ∃ es', collectElems f k xs = .error es' ∧
      ZodIssue.push (.index (k + i)) e ∈ es' := by
  induction xs generalizing k i with
  | nil => simp at hx
  | cons y ys ih =>
    cases i with
    | zero =>
      have hy : y = x := by simpa using hx
      subst hy
      have hpush : ZodIssue.push (.index k) e ∈ pushAll (.index k) es :=
        List.mem_map_of_mem _ he
      obtain ⟨es', hc, hm⟩ :=
        comb2_error_left_mem List.cons (collectElems f (k + 1) ys)
          (pushAll (.index k) es) _ hpush
      refine ⟨es', ?_, by simpa using hm⟩
      rw [collectElems, hf]
      exact hc
    | succ j =>
      obtain ⟨es', hc, hm⟩ := ih (k + 1) j (by simpa using hx)
      obtain ⟨es2, hc2, hm2⟩ :=
        comb2_error_right_mem List.cons
          (match f y with
           | .ok a => Except.ok a
           | .error es0 => Except.error (pushAll (.index k) es0)) es' _ hm
      refine ⟨es2, ?_, ?_⟩
      · rw [collectElems, ← hc2, hc]
      · have harith : k + 1 + j = k + (j + 1) := by omega
        rwa [harith] at hm2

theorem parseArrayOf_error_mem {α : Type} (f : Json → Except (List ZodIssue) α)
    (xs : List Json) (i : Nat) (x : Json) (es : List ZodIssue) (e : ZodIssue)
    (hx : xs.get? i = some x) (hf : f x = .error es) (he : e ∈ es) :
    ∃ es', parseArrayOf f (some (.arr xs)) = .error es' ∧
      ZodIssue.push (.index i) e ∈ es' := by
  obtain ⟨es', h1, h2⟩ := collectElems_error_mem f xs 0 i x es e hx hf he
  exact ⟨es', by simpa [parseArrayOf] using h1, by simpa using h2⟩

theorem parseField_error_of (name : String) {α : Type}
    (p : Option Json → Except (List ZodIssue) α) (fs : List (String × Json))
    (es : List ZodIssue) (i : ZodIssue)
    (hp : p (lookupField fs name) = .error es) (hi : i ∈ es) :
    parseField name p fs = .error (pushAll (.field name) es) ∧
      ZodIssue.push (.field name) i ∈ pushAll (.field name) es := by
  exact ⟨by simp [parseField, hp], List.mem_map_of_mem _ hi⟩

/-- C8: schema validation fails with a details entry naming the offending
    field path — for a body whose `model` object lacks `uri` (path
    `model.uri`), for a body lacking `messages` (path `messages`), for a
    message whose role is outside the allowed enum (path
    `messages[i].role`), and for a part whose `type` is not `"text"` (path
    `messages[i].parts[k].type`); and the handler then answers 400 with
    `error "Invalid request body"` and that details list. -/
theorem schema_validation_names_offending_path :
    (∀ (roles : List String) (fs mfs : List (String × Json)),
      lookupField fs "model" = some (.obj mfs) →
      lookupField mfs "uri" = none →
      hasIssueAt (safeParsePayload roles (.obj fs))
        [.field "model", .field "uri"] = true) ∧
    (∀ (roles : List String) (fs : List (String × Json)),
      lookupField fs "messages" = none →
      hasIssueAt (safeParsePayload roles (.obj fs)) [.field "messages"] = true) ∧
    (∀ (roles : List String) (fs : List (String × Json)) (msgs : List Json)
        (i : Nat) (mfs : List (String × Json)) (r : String),
      lookupField fs "messages" = some (.arr msgs) →
      msgs.get? i = some (.obj mfs) →
      lookupField mfs "role" = some (.str r) →
      roles.contains r = false →
      hasIssueAt (safeParsePayload roles (.obj fs))
        [.field "messages", .index i, .field "role"] = true) ∧
    (∀ (roles : List String) (fs : List (String × Json)) (msgs : List Json)
        (i : Nat) (mfs : List (String × Json)) (parts : List Json) (k : Nat)
        (pfs : List (String × Json)) (t : String),
      lookupField fs "messages" = some (.arr msgs) →
      msgs.get? i = some (.obj mfs) →
      lookupField mfs "parts" = some (.arr parts) →
      parts.get? k = some (.obj pfs) →
      lookupField pfs "type" = some (.str t) →
      t ≠ "text" →
      hasIssueAt (safeParsePayload roles (.obj fs))
        [.field "messages", .index i, .field "parts", .index k,
          .field "type"] = true) ∧
    (∀ (env : Env) (sb : Option (List StreamEvent)) (req : Request) (j : Json)
        (issues : List ZodIssue),
      req.path = "/v1/chat/completions" → req.method = "POST" →
      (verifyAuthentication env req.authorization).1.success = true →
      req.body = .ok j →
      safeParsePayload rolesAuth j = .error issues →
      (handleRequest env sb req).response =
        ⟨400, .validationError "Invalid request body" issues⟩) := by
  refine ⟨?_, ?_, ?_, ?_, ?_⟩
  · -- missing model.uri
    intro roles fs mfs hmodel huri
    have h1 : parseStringV (lookupField mfs "uri") =
        .error [⟨[], "invalid_type"⟩] := by rw [huri]; rfl
    obtain ⟨hf, hmem⟩ := parseField_error_of "uri" parseStringV mfs _ _ h1
      (List.mem_singleton.mpr rfl)
    obtain ⟨es2, h2, hm2⟩ := comb2_error_left_mem ModelSel.mk
      (parseField "params" parseRecordAny mfs) _ _ hmem
    have hun : parseModel (some (.obj mfs)) =
        comb2 ModelSel.mk (parseField "uri" parseStringV mfs)
          (parseField "params" parseRecordAny mfs) := rfl
    have h3 : parseModel (lookupField fs "model") = .error es2 := by
      rw [hmodel, hun, hf]
      exact h2
    obtain ⟨hf4, hmem4⟩ := parseField_error_of "model" parseModel fs _ _ h3 hm2
    obtain ⟨es5, h5, hm5⟩ := comb2_error_right_mem Payload.mk
      (parseField "messages" (parseArrayOf (parseMessage roles)) fs) _ _ hmem4
    have hunP : safeParsePayload roles (.obj fs) =
        comb2 Payload.mk (parseField "messages" (parseArrayOf (parseMessage roles)) fs)
          (parseField "model" parseModel fs) := rfl
    have h6 : safeParsePayload roles (.obj fs) = .error es5 := by
      rw [hunP, hf4]
      exact h5
    exact hasIssueAt_of_mem _ es5 _ _ h6 hm5 rfl
  · -- missing messages
    intro roles fs hmsgs
    have h1 : parseArrayOf (parseMessage roles) (lookupField fs "messages") =
        .error [⟨[], "invalid_type"⟩] := by rw [hmsgs]; rfl
    obtain ⟨hf, hmem⟩ := parseField_error_of "messages"
      (parseArrayOf (parseMessage roles)) fs _ _ h1 (List.mem_singleton.mpr rfl)
    obtain ⟨es2, h2, hm2⟩ := comb2_error_left_mem Payload.mk
      (parseField "model" parseModel fs) _ _ hmem
    have hunP : safeParsePayload roles (.obj fs) =
        comb2 Payload.mk (parseField "messages" (parseArrayOf (parseMessage roles)) fs)
          (parseField "model" parseModel fs) := rfl
    have h3 : safeParsePayload roles (.obj fs) = .error es2 := by
      rw [hunP, hf]
      exact h2
    exact hasIssueAt_of_mem _ es2 _ _ h3 hm2 rfl
  · -- role outside the enum
    intro roles fs msgs i mfs r hmsgs hmi hrole hr
    have hnr : ¬ r ∈ roles := by simpa using hr
    have h1 : parseEnumV roles (lookupField mfs "role") =
        .error [⟨[], "invalid_enum_value"⟩] := by
      rw [hrole]
      simp [parseEnumV, hnr]
    obtain ⟨hf, hmem⟩ := parseField_error_of "role" (parseEnumV roles) mfs _ _ h1
      (List.mem_singleton.mpr rfl)
    obtain ⟨es2, h2, hm2⟩ := comb2_error_left_mem Message.mk
      (parseField "parts" (parseArrayOf parseContentPart) mfs) _ _ hmem
    have hunM : parseMessage roles (.obj mfs) =
        comb2 Message.mk (parseField "role" (parseEnumV roles) mfs)
          (parseField "parts" (parseArrayOf parseContentPart) mfs) := rfl
    have h3 : parseMessage roles (.obj mfs) = .error es2 := by
      rw [hunM, hf]
      exact h2
    obtain ⟨es4, h4, hm4⟩ := parseArrayOf_error_mem (parseMessage roles) msgs i
      _ _ _ hmi h3 hm2
    obtain ⟨hf5, hmem5⟩ := parseField_error_of "messages"
      (parseArrayOf (parseMessage roles)) fs _ _ (by rw [hmsgs]; exact h4) hm4
    obtain ⟨es6, h6, hm6⟩ := comb2_error_left_mem Payload.mk
      (parseField "model" parseModel fs) _ _ hmem5
    have hunP : safeParsePayload roles (.obj fs) =
        comb2 Payload.mk (parseField "messages" (parseArrayOf (parseMessage roles)) fs)
          (parseField "model" parseModel fs) := rfl
    have h7 : safeParsePayload roles (.obj fs) = .error es6 := by
      rw [hunP, hf5]
      exact h6
    exact hasIssueAt_of_mem _ es6 _ _ h7 hm6 rfl
  · -- part type not "text"
    intro roles fs msgs i mfs parts k pfs t hmsgs hmi hparts hpk htype ht
    have h1 : parseLiteralText (lookupField pfs "type") =
        .error [⟨[], "invalid_literal"⟩] := by
      rw [htype]
      simp [parseLiteralText, ht]
    obtain ⟨hf, hmem⟩ := parseField_error_of "type" parseLiteralText pfs _ _ h1
      (List.mem_singleton.mpr rfl)
    obtain ⟨es2, h2, hm2⟩ := comb2_error_left_mem ContentPart.mk
      (parseField "text" parseStringV pfs) _ _ hmem
    have hunC : parseContentPart (.obj pfs) =
        comb2 ContentPart.mk (parseField "type" parseLiteralText pfs)
          (parseField "text" parseStringV pfs) := rfl
    have h3 : parseContentPart (.obj pfs) = .error es2 := by
      rw [hunC, hf]
      exact h2
    obtain ⟨es4, h4, hm4⟩ := parseArrayOf_error_mem parseContentPart parts k
      _ _ _ hpk h3 hm2
    obtain ⟨hf5, hmem5⟩ := parseField_error_of "parts"
      (parseArrayOf parseContentPart) mfs _ _ (by rw [hparts]; exact h4) hm4
    obtain ⟨es6, h6, hm6⟩ := comb2_error_right_mem Message.mk
      (parseField "role" (parseEnumV roles) mfs) _ _ hmem5
    have hunM : parseMessage roles (.obj mfs) =
        comb2 Message.mk (parseField "role" (parseEnumV roles) mfs)
          (parseField "parts" (parseArrayOf parseContentPart) mfs) := rfl
    have h7 : parseMessage roles (.obj mfs) = .error es6 := by
      rw [hunM, hf5]
      exact h6
    obtain ⟨es8, h8, hm8⟩ := parseArrayOf_error_mem (parseMessage roles) msgs i
      _ _ _ hmi h7 hm6
    obtain ⟨hf9, hmem9⟩ := parseField_error_of "messages"
      (parseArrayOf (parseMessage roles)) fs _ _ (by rw [hmsgs]; exact h8) hm8
    obtain ⟨es10, h10, hm10⟩ := comb2_error_left_mem Payload.mk
      (parseField "model" parseModel fs) _ _ hmem9
    have hunP : safeParsePayload roles (.obj fs) =
        comb2 Payload.mk (parseField "messages" (parseArrayOf (parseMessage roles)) fs)
          (parseField "model" parseModel fs) := rfl
    have h11 : safeParsePayload roles (.obj fs) = .error es10 := by
      rw [hunP, hf9]
      exact h10
    exact hasIssueAt_of_mem _ es10 _ _ h11 hm10 rfl
  · -- handler answers 400 with the details list
    intro env sb req j issues hp hm ha hb hv
    simp [handleRequest, hp, hm, ha, hb, hv]

theorem schema_validation_names_offending_path_witness :
    hasIssueAt (safeParsePayload rolesAuth
        (.obj [("messages", .arr []), ("model", .obj [("params", .obj [])])]))
      [.field "model", .field "uri"] = true ∧
    hasIssueAt (safeParsePayload rolesAuth
        (.obj [("model", .obj [("uri", .str "gpt-4o"), ("params", .obj [])])]))
      [.field "messages"] = true ∧
    hasIssueAt (safeParsePayload rolesAuth
        (.obj [("messages",
                 .arr [.obj [("role", .str "robot"), ("parts", .arr [])]]),
               ("model", .obj [("uri", .str "gpt-4o"), ("params", .obj [])])]))
      [.field "messages", .index 0, .field "role"] = true ∧
    hasIssueAt (safeParsePayload rolesAuth
        (.obj [("messages",
                 .arr [.obj [("role", .str "user"),
                             ("parts",
                               .arr [.obj [("type", .str "image"),
                                           ("text", .str "x")]])]]),
               ("model", .obj [("uri", .str "gpt-4o"), ("params", .obj [])])]))
      [.field "messages", .index 0, .field "parts", .index 0,
        .field "type"] = true ∧
    (handleRequest c4env none
        ⟨"POST", "/v1/chat/completions", some "Bearer t", .ok (.obj [])⟩).response =
      ⟨400, .validationError "Invalid request body"
        [⟨[.field "messages"], "invalid_type"⟩,
         ⟨[.field "model"], "invalid_type"⟩]⟩ :=
  ⟨schema_validation_names_offending_path.1 rolesAuth
      [("messages", .arr []), ("model", .obj [("params", .obj [])])]
      [("params", .obj [])] rfl rfl,
   schema_validation_names_offending_path.2.1 rolesAuth
      [("model", .obj [("uri", .str "gpt-4o"), ("params", .obj [])])] rfl,
   schema_validation_names_offending_path.2.2.1 rolesAuth
      [("messages", .arr [.obj [("role", .str "robot"), ("parts", .arr [])]]),
       ("model", .obj [("uri", .str "gpt-4o"), ("params", .obj [])])]
      [.obj [("role", .str "robot"), ("parts", .arr [])]] 0
      [("role", .str "robot"), ("parts", .arr [])] "robot" rfl rfl rfl rfl,
   schema_validation_names_offending_path.2.2.2.1 rolesAuth
      [("messages",
         .arr [.obj [("role", .str "user"),
                     ("parts", .arr [.obj [("type", .str "image"),
                                           ("text", .str "x")]])]]),
       ("model", .obj [("uri", .str "gpt-4o"), ("params", .obj [])])]
      [.obj [("role", .str "user"),
             ("parts", .arr [.obj [("type", .str "image"),
                                   ("text", .str "x")]])]] 0
      [("role", .str "user"),
       ("parts", .arr [.obj [("type", .str "image"), ("text", .str "x")]])]
      [.obj [("type", .str "image"), ("text", .str "x")]] 0
      [("type", .str "image"), ("text", .str "x")] "image"
      rfl rfl rfl rfl rfl (by decide),
   schema_validation_names_offending_path.2.2.2.2 c4env none
      ⟨"POST", "/v1/chat/completions", some "Bearer t", .ok (.obj [])⟩
      (.obj [])
      [⟨[.field "messages"], "invalid_type"⟩, ⟨[.field "model"], "invalid_type"⟩]
      rfl rfl rfl rfl rfl⟩
